import Mathlib

/-!
Verification of the `use-idb-storage` library (a thin convenience layer over
IndexedDB) against its natural-language design document.

The TypeScript source is shallowly embedded: the IndexedDB engine is modelled
as an explicit state (databases mapping store names to key/value association
lists), promises become `Except`-valued functions, and `console.error` calls
become an explicit log of emitted message strings.  Values stored through the
library are "plain data" (objects, arrays, primitives, null), modelled by the
inductive type `Plain`; the structured-clone algorithm is the identity on such
data, so `put` stores the value itself.
-/

namespace Idb

/-- A JavaScript error value, as observed through its `name` and `message`
fields (the only fields the library inspects). -/
structure JsErr where
  name : String
  message : String
deriving DecidableEq, Repr

/-- The `VersionError` produced by `indexedDB.open` when the requested version
is lower than the existing one.  The message text follows the engines the
library targets; the library's retry path tests `message.includes('less than')`. -/
def versionError : JsErr :=
  { name := "VersionError",
    message := "The requested version is less than the existing version." }

/-- The `NotFoundError` thrown by `IDBDatabase.transaction` when the named
object store does not exist in the connection. -/
def notFoundError : JsErr :=
  { name := "NotFoundError",
    message := "One of the specified object stores was not found." }

/-- Plain serializable data: null, booleans, numbers, strings, arrays and
plain objects.  Structural equality on `Plain` is exactly deep equality. -/
inductive Plain where
  | null : Plain
  | bool (b : Bool) : Plain
  | num (n : Int) : Plain
  | str (s : String) : Plain
  | arr (xs : List Plain) : Plain
  | obj (fields : List (String × Plain)) : Plain

/-- Association-list lookup keyed by strings (used for object stores, the set
of stores of a database, the set of databases of the engine, and the
connection cache). -/
def Assoc.get? {β : Type} : List (String × β) → String → Option β
  | [], _ => none
  | (k, v) :: rest, key => if k = key then some v else Assoc.get? rest key

/-- Association-list insert-or-overwrite (the semantics of `IDBObjectStore.put`
and of `Map.set`). -/
def Assoc.put {β : Type} : List (String × β) → String → β → List (String × β)
  | [], key, v => [(key, v)]
  | (k, w) :: rest, key, v =>
      if k = key then (key, v) :: rest else (k, w) :: Assoc.put rest key v

/-- Association-list deletion of every binding of a key (the semantics of
`IDBObjectStore.delete` and of `Map.delete`). -/
def Assoc.erase {β : Type} : List (String × β) → String → List (String × β)
  | [], _ => []
  | (k, v) :: rest, key =>
      if k = key then Assoc.erase rest key else (k, v) :: Assoc.erase rest key

/-- One object store: key/value records with string keys.  (IndexedDB keeps
records in key order; none of the verified claims depend on enumeration
order, so the association list keeps insertion order instead.) -/
def ObjStore : Type := List (String × Plain)

/-- An IndexedDB database: its version and its named object stores. -/
structure DB where
  version : Nat
  stores : List (String × ObjStore)

/-- Does the database contain the named object store
(`db.objectStoreNames.contains(storeName)`)? -/
def DB.hasStore (db : DB) (storeName : String) : Bool :=
  (Assoc.get? db.stores storeName).isSome

/-- An open connection as seen by the key-value helpers.  `fault`, when set,
makes every transaction/request against this connection fail with the given
error: it models the engine-level failures (abort, quota, closing connection)
whose propagation the design document specifies. -/
structure DBConn where
  db : DB
  fault : Option JsErr

/-- `getFromDB` (database.ts): read-only transaction, `store.get(key)`,
resolving `undefined` (here `none`) for an absent key. -/
def getFromDB (c : DBConn) (storeName key : String) : Except JsErr (Option Plain) :=
  match c.fault with
  | some e => .error e
  | none =>
      match Assoc.get? c.db.stores storeName with
      | none => .error notFoundError
      | some s => .ok (Assoc.get? s key)

/-- `setInDB` (database.ts): read-write transaction, `store.put(value, key)`,
overwriting unconditionally.  Returns the connection after the write. -/
def setInDB (c : DBConn) (storeName key : String) (v : Plain) : Except JsErr DBConn :=
  match c.fault with
  | some e => .error e
  | none =>
      match Assoc.get? c.db.stores storeName with
      | none => .error notFoundError
      | some s =>
          .ok { c with
                db := { c.db with
                        stores := Assoc.put c.db.stores storeName (Assoc.put s key v) } }

/-- `removeFromDB` (database.ts): read-write transaction, `store.delete(key)`,
a no-op when the key is absent. -/
def removeFromDB (c : DBConn) (storeName key : String) : Except JsErr DBConn :=
  match c.fault with
  | some e => .error e
  | none =>
      match Assoc.get? c.db.stores storeName with
      | none => .error notFoundError
      | some s =>
          .ok { c with
                db := { c.db with
                        stores := Assoc.put c.db.stores storeName (Assoc.erase s key) } }

/-- An `IDBStore` instance (idb-storage.ts): a connection plus the name of the
object store the accessor is bound to. -/
structure IDBStoreRef where
  conn : DBConn
  storeName : String

/-- Result of an accessor method that only reads: the settled promise and the
list of `console.error` messages emitted at the call site. -/
def IDBStore.get (st : IDBStoreRef) (key : String) :
    Except JsErr (Option Plain) × List String :=
  match getFromDB st.conn st.storeName key with
  | .ok v => (.ok v, [])
  | .error e => (.error e, ["Failed to get value for key"])

/-- `IDBStore.set`: writes through `setInDB`; on failure logs and rethrows the
same error.  Returns the connection after the write on success. -/
def IDBStore.set (st : IDBStoreRef) (key : String) (v : Plain) :
    Except JsErr DBConn × List String :=
  match setInDB st.conn st.storeName key v with
  | .ok c => (.ok c, [])
  | .error e => (.error e, ["Failed to set value for key"])

/-- `IDBStore.delete`: removes through `removeFromDB`; on failure logs and
rethrows the same error. -/
def IDBStore.delete (st : IDBStoreRef) (key : String) :
    Except JsErr DBConn × List String :=
  match removeFromDB st.conn st.storeName key with
  | .ok c => (.ok c, [])
  | .error e => (.error e, ["Failed to delete key"])

/-- The `Promise.all` over the independent `this.get(key)` calls issued by
`getMany`: every get runs (so every failing get logs its own line) and the
overall result is the first rejection, if any. -/
def IDBStore.collectGets (st : IDBStoreRef) :
    List String → Except JsErr (List (Option Plain)) × List String
  | [] => (.ok [], [])
  | k :: ks =>
      let r := IDBStore.get st k
      let rs := IDBStore.collectGets st ks
      match r.1, rs.1 with
      | .ok v, .ok vs => (.ok (v :: vs), r.2 ++ rs.2)
      | .error e, _ => (.error e, r.2 ++ rs.2)
      | .ok _, .error e => (.error e, r.2 ++ rs.2)

/-- `IDBStore.getMany`: independent concurrent gets (no shared transaction);
on any rejection the method logs once more and rethrows. -/
def IDBStore.getMany (st : IDBStoreRef) (ks : List String) :
    Except JsErr (List (Option Plain)) × List String :=
  match IDBStore.collectGets st ks with
  | (.ok vs, log) => (.ok vs, log)
  | (.error e, log) => (.error e, log ++ ["Failed to get multiple values"])

/-- `IDBStore.setMany`: one read-write transaction; `put` for every entry with
last-write-wins; the transaction itself throws when the connection is faulted
or the store is missing, and the method then logs and rethrows. -/
def IDBStore.setMany (st : IDBStoreRef) (entries : List (String × Plain)) :
    Except JsErr DBConn × List String :=
  match st.conn.fault with
  | some e => (.error e, ["Failed to set multiple values"])
  | none =>
      match Assoc.get? st.conn.db.stores st.storeName with
      | none => (.error notFoundError, ["Failed to set multiple values"])
      | some s =>
          let s2 := entries.foldl (fun acc kv => Assoc.put acc kv.1 kv.2) s
          (.ok { st.conn with
                 db := { st.conn.db with
                         stores := Assoc.put st.conn.db.stores st.storeName s2 } }, [])

/-- `IDBStore.deleteMany`: one read-write transaction deleting every key; logs
and rethrows when the transaction or a request fails. -/
def IDBStore.deleteMany (st : IDBStoreRef) (ks : List String) :
    Except JsErr DBConn × List String :=
  match st.conn.fault with
  | some e => (.error e, ["Failed to delete multiple keys"])
  | none =>
      match Assoc.get? st.conn.db.stores st.storeName with
      | none => (.error notFoundError, ["Failed to delete multiple keys"])
      | some s =>
          let s2 := ks.foldl (fun acc k => Assoc.erase acc k) s
          (.ok { st.conn with
                 db := { st.conn.db with
                         stores := Assoc.put st.conn.db.stores st.storeName s2 } }, [])

/-- `IDBStore.update`: read-modify-write through `this.get` and `this.set`;
a failure of either step is logged by that step and once more by `update`,
then rethrown. -/
def IDBStore.update (st : IDBStoreRef) (key : String) (f : Option Plain → Plain) :
    Except JsErr DBConn × List String :=
  let r := IDBStore.get st key
  match r.1 with
  | .error e => (.error e, r.2 ++ ["Failed to update value for key"])
  | .ok cur =>
      let r2 := IDBStore.set st key (f cur)
      match r2.1 with
      | .error e => (.error e, r.2 ++ r2.2 ++ ["Failed to update value for key"])
      | .ok c2 => (.ok c2, r.2 ++ r2.2)

/-- `IDBStore.clear`: one read-write transaction, `store.clear()`. -/
def IDBStore.clear (st : IDBStoreRef) : Except JsErr DBConn × List String :=
  match st.conn.fault with
  | some e => (.error e, ["Failed to clear store"])
  | none =>
      match Assoc.get? st.conn.db.stores st.storeName with
      | none => (.error notFoundError, ["Failed to clear store"])
      | some _ =>
          (.ok { st.conn with
                 db := { st.conn.db with
                         stores := Assoc.put st.conn.db.stores st.storeName [] } }, [])

/-- `IDBStore.keys`: `store.getAllKeys()` materialized. -/
def IDBStore.keys (st : IDBStoreRef) : Except JsErr (List String) × List String :=
  match st.conn.fault with
  | some e => (.error e, ["Failed to get keys"])
  | none =>
      match Assoc.get? st.conn.db.stores st.storeName with
      | none => (.error notFoundError, ["Failed to get keys"])
      | some s => (.ok (s.map Prod.fst), [])

/-- `IDBStore.values`: `store.getAll()` materialized. -/
def IDBStore.values (st : IDBStoreRef) : Except JsErr (List Plain) × List String :=
  match st.conn.fault with
  | some e => (.error e, ["Failed to get values"])
  | none =>
      match Assoc.get? st.conn.db.stores st.storeName with
      | none => (.error notFoundError, ["Failed to get values"])
      | some s => (.ok (s.map Prod.snd), [])

/-- `IDBStore.entries`: cursor walk materializing every (key, value) pair. -/
def IDBStore.entries (st : IDBStoreRef) :
    Except JsErr (List (String × Plain)) × List String :=
  match st.conn.fault with
  | some e => (.error e, ["Failed to get entries"])
  | none =>
      match Assoc.get? st.conn.db.stores st.storeName with
      | none => (.error notFoundError, ["Failed to get entries"])
      | some s => (.ok s, [])

/-- The IndexedDB engine as seen by `indexedDB.open`: the existing databases
by name, plus an optional injected open failure (`openFault`) modelling the
engine errors other than `VersionError` (blocked, quota, corruption, ...). -/
structure Engine where
  dbs : List (String × DB)
  openFault : Option JsErr

/-- Replace (or add) the engine's copy of a database. -/
def Engine.setDB (e : Engine) (name : String) (db : DB) : Engine :=
  { e with dbs := Assoc.put e.dbs name db }

/-- `indexedDB.open(name, version?)` semantics, with `upg` the registered
`onupgradeneeded` handler:
  absent database: it is created (at the requested version, default 1) and
  upgraded from scratch; present database: no version adopts the existing one,
  a lower version yields `VersionError`, an equal version opens as-is, and a
  higher version runs the upgrade handler at the new version. -/
def openRequest (e : Engine) (name : String) (version : Option Nat) (upg : DB → DB) :
    Except JsErr (Engine × DB) :=
  match e.openFault with
  | some err => .error err
  | none =>
      match Assoc.get? e.dbs name with
      | none =>
          let v := version.getD 1
          let db := upg { version := v, stores := [] }
          .ok (e.setDB name db, db)
      | some db =>
          match version with
          | none => .ok (e, db)
          | some v =>
              if v < db.version then .error versionError
              else if v = db.version then .ok (e, db)
              else
                let db2 := upg { db with version := v }
                .ok (e.setDB name db2, db2)

/-- The `onupgradeneeded` handler of `_openDB` (database.ts): create the
requested object store when it is missing. -/
def ensureStore (storeName : String) (db : DB) : DB :=
  if db.hasStore storeName then db
  else { db with stores := (storeName, ([] : ObjStore)) :: db.stores }

/-- The connection-cache key used by the exported `openDB`:
`` `${dbName}:${version}:${storeName}` `` with a numeric version. -/
def openDBKey (dbName : String) (version : Nat) (storeName : String) : String :=
  dbName ++ ":" ++ toString version ++ ":" ++ storeName

/-- The cache key deleted inside `_openDB`:
`` `${dbName}:${version ?? 'current'}:${storeName}` ``. -/
def pendKey (dbName : String) (version : Option Nat) (storeName : String) : String :=
  dbName ++ ":" ++ (match version with | some v => toString v | none => "current")
    ++ ":" ++ storeName

/-- The process-wide `dbConnections` map.  Each cached value is the identity
of an in-flight (or settled) open promise, modelled by a numeric id; `nextId`
supplies the identity that `_openDB` would allocate next. -/
structure OpenCache where
  entries : List (String × Nat)
  nextId : Nat

/-- The exported `openDB` (database.ts), restricted to its cache behaviour
(`isIDBAvailable` is assumed to hold): a hit returns the registered promise
with the cache untouched, a miss registers a fresh in-flight promise under the
key and returns it. -/
def openDBAcquire (st : OpenCache) (dbName storeName : String) (version : Nat) :
    OpenCache × Nat :=
  match Assoc.get? st.entries (openDBKey dbName version storeName) with
  | some p => (st, p)
  | none =>
      let p := st.nextId
      ({ entries := Assoc.put st.entries (openDBKey dbName version storeName) p,
         nextId := p + 1 }, p)

/-- Is the second char list a prefix of the first? (helper for `.includes`). -/
def charsHasLead : List Char → List Char → Bool
  | _, [] => true
  | [], _ :: _ => false
  | a :: as, b :: bs => a == b && charsHasLead as bs

/-- Does the first char list contain the second as a contiguous run?
(helper for `.includes`). -/
def charsHasSub : List Char → List Char → Bool
  | [], needle => needle.isEmpty
  | a :: as, needle => charsHasLead (a :: as) needle || charsHasSub as needle

/-- JavaScript `haystack.includes(needle)` on strings. -/
def includesSub (haystack needle : String) : Bool :=
  charsHasSub haystack.toList needle.toList

/-- The retry condition of `_openDB`'s error handler:
`error.name === 'VersionError' && error.message.includes('less than')`. -/
def isVersionRetryErr (e : JsErr) : Bool :=
  e.name == "VersionError" && includesSub e.message "less than"

/-- Error standing for exhausted modelling fuel.  The source recursion is
unbounded; fuel makes the embedding total, and every theorem below supplies
enough fuel for the run it describes. -/
def fuelExhausted : JsErr := { name := "ModelFuel", message := "fuel exhausted" }

/-- `_openDB` (database.ts), threading the engine and the connection cache.
On an open error the pending cache entry is dropped and a
version-lower-than-existing error is retried once with no explicit version;
other errors reject.  On success, if the requested store is missing the
connection is closed, the cache entry dropped, and the open retried at the
opened version + 1; otherwise the connection is returned. -/
def openDBRec : Nat → Engine → List (String × Nat) → String → String → Option Nat →
    Except JsErr (Engine × List (String × Nat) × DB)
  | 0, _, _, _, _, _ => .error fuelExhausted
  | fuel + 1, e, cache, dbName, storeName, version =>
      match openRequest e dbName version (ensureStore storeName) with
      | .error err =>
          let cache2 := Assoc.erase cache (pendKey dbName version storeName)
          if isVersionRetryErr err then
            openDBRec fuel e cache2 dbName storeName none
          else .error err
      | .ok (e2, db) =>
          if db.hasStore storeName then .ok (e2, cache, db)
          else
            let cache2 := Assoc.erase cache (pendKey dbName version storeName)
            openDBRec fuel e2 cache2 dbName storeName (some (db.version + 1))

/-- The mutable refs of one mounted `useIDBStorage` (hook.tsx) binding that
the debounced writer reads.  Values have type `Option α` with `none` playing
JavaScript's `null`; `pending` is `pendingValueRef.current` (whose `null`
also means "no pending write"), and `timerArmed` records that a scheduled,
not-yet-fired debounce timeout exists.  `ready` bundles the guard
`isInitializedRef.current && storeRef.current && hasLoadedRef.current`. -/
structure Binding (α : Type) where
  ready : Bool
  pending : Option α
  timerArmed : Bool

/-- `saveToIDB` (hook.tsx): bail out when the binding is not ready; otherwise
record the latest value in `pendingValueRef`, clear any existing timeout and
arm a fresh one.  No write is issued here — the setter only schedules. -/
def saveToIDB {α : Type} (b : Binding α) (v : Option α) : Binding α :=
  if b.ready then { b with pending := v, timerArmed := true } else b

/-- The debounce timeout firing: take the pending value, reset it to `null`,
and issue a background write only when the taken value is not `null`.
Returns the new binding state and the list of writes issued (zero or one).
After the real callback runs, `saveTimeoutRef` retains a stale fired handle;
since `pending` is `null` then, clearing `timerArmed` is observationally the
same for the teardown guard below. -/
def timerFire {α : Type} (b : Binding α) : Binding α × List (Option α) :=
  if b.timerArmed then
    match b.pending with
    | some v => ({ b with pending := none, timerArmed := false }, [some v])
    | none => ({ b with pending := none, timerArmed := false }, [])
  else (b, [])

/-- The last value of a nonempty call sequence, given as head plus tail:
"the last value set" of the design document. -/
def lastSet {α : Type} (v : Option α) : List (Option α) → Option α
  | [] => v
  | w :: l => lastSet w l

/-- The effect-cleanup flush (hook.tsx): when a timeout is armed it is
cancelled, and the pending value is written only when it is not `null`.
Returns the write issued, if any. -/
def teardownFlush {α : Type} (b : Binding α) : Option (Option α) :=
  if b.timerArmed then
    match b.pending with
    | some v => some (some v)
    | none => none
  else none

/-- The resolved configuration `{ database, version, store }` held by an
`IDBStorage` facade.  The JavaScript version field is a double; `Rat` keeps
non-integer versions representable so that flooring is observable. -/
structure IDBConfigValues where
  database : String
  version : Rat
  store : String
deriving DecidableEq, Repr

/-- Caller-supplied constructor overrides, `Partial<IDBConfigValues>`:
an absent field is `none`.  (A field explicitly set to `undefined` behaves
like an absent one for the claims below.) -/
structure IDBConfigOverrides where
  database : Option String
  version : Option Rat
  store : Option String

/-- The hard-coded fallback defaults of the `IDBStorage` constructor. -/
def defaultIDBConfig : IDBConfigValues :=
  { database := "sohanemon-idb", version := 1, store := "default" }

/-- The spread `{ ...base, ...g }` for a full (every-field-present) record:
every field of `base` is overridden. -/
def spreadFull (_base g : IDBConfigValues) : IDBConfigValues :=
  { database := g.database, version := g.version, store := g.store }

/-- The spread `{ ...base, ...p }` for a `Partial` record: a present field
overrides, an absent one keeps the base. -/
def spreadOverrides (base : IDBConfigValues) (p : IDBConfigOverrides) : IDBConfigValues :=
  { database := p.database.getD base.database,
    version := p.version.getD base.version,
    store := p.store.getD base.store }

/-- The `IDBStorage` constructor (idb-storage.ts):
`this.config = { ...defaultConfig, ...globalConfig, ...config }`, where
`getGlobalConfig()` returns a full `IDBConfigValues`. -/
def IDBStorage.mkConfig (globalConfig : IDBConfigValues) (overrides : IDBConfigOverrides) :
    IDBConfigValues :=
  spreadOverrides (spreadFull defaultIDBConfig globalConfig) overrides

/-- JavaScript `a || b` on the numeric version slot: `b` when `a` is absent
(`undefined`) or `0` (falsy). -/
def jsOrNum (a : Option Rat) (b : Rat) : Rat :=
  match a with
  | none => b
  | some x => if x = 0 then b else x

/-- JavaScript `a || b` on a string slot: `b` when `a` is absent or empty. -/
def jsOrStr (a : Option String) (b : String) : String :=
  match a with
  | none => b
  | some s => if s = "" then b else s

/-- The hook's version resolution (hook.tsx, lines 52-55):
`Math.max(1, Math.floor(opts.version || contextConfig.version || 1))`. -/
def hookVersion (optsVersion : Option Rat) (ctxVersion : Rat) : Int :=
  max 1 ⌊jsOrNum optsVersion (jsOrNum (some ctxVersion) 1)⌋

/-- The configuration the hook passes to `new IDBStorage({database, version,
store})`: all three fields are supplied, so the constructed facade stores
exactly this record. -/
def hookConfig (opts : IDBConfigOverrides) (ctx : IDBConfigValues) : IDBConfigValues :=
  { database := jsOrStr opts.database ctx.database,
    version := (hookVersion opts.version ctx.version : Rat),
    store := jsOrStr opts.store ctx.store }

/-- A JavaScript argument value as far as the `openDB` call boundary is
concerned: a string, a function value (identified by a tag), or `undefined`
for an argument position left unfilled. -/
inductive JsArg where
  | str (s : String) : JsArg
  | fn (tag : String) : JsArg
  | undef : JsArg
deriving DecidableEq, Repr

/-- The four parameters of `openDB(dbName, storeName, version = 1,
onVersionChange?)` as bound by one call. -/
structure OpenDBArgs where
  dbName : JsArg
  storeName : JsArg
  version : JsArg
  onVersionChange : JsArg
deriving DecidableEq, Repr

/-- The call `IDBStorage.getDB` makes (idb-storage.ts, line 246):
`openDB(this.config.database, this.config.store, () => { ... })`.  The third
positional argument — the cached-connection reset callback — is bound to
`openDB`'s `version` parameter, and `onVersionChange` receives `undefined`;
`this.config.version` appears nowhere in the argument list. -/
def getDBOpenArgs (cfg : IDBConfigValues) : OpenDBArgs :=
  { dbName := .str cfg.database,
    storeName := .str cfg.store,
    version := .fn "resetCachedDb",
    onVersionChange := .undef }

/-- JavaScript template-literal stringification of an argument value, as used
by `` `${dbName}:${version}:${storeName}` `` inside `openDB`. -/
def JsArg.jsToString : JsArg → String
  | .str s => s
  | .fn tag => "function " ++ tag
  | .undef => "undefined"

/-- The cache key `openDB` computes from whatever landed in its parameters. -/
def openDBKeyOfArgs (a : OpenDBArgs) : String :=
  a.dbName.jsToString ++ ":" ++ a.version.jsToString ++ ":" ++ a.storeName.jsToString

/-- The state of the richer hook variant's reducer: value, error, and the
`lastUpdated` timestamp (`Date | null`, timestamps modelled as naturals). -/
structure IDBHookState (T : Type) where
  value : T
  error : Option JsErr
  lastUpdated : Option Nat

/-- The action type of `idbReducer` (reducer.ts).  The TypeScript `switch`
`default` branch is unreachable for well-typed actions since the inductive is
closed. -/
inductive IDBHookAction (T : Type) where
  | updateValue (value : T) : IDBHookAction T
  | setError (error : Option JsErr) : IDBHookAction T
  | loadValue (value : T) : IDBHookAction T
  | reset (defaultValue : T) : IDBHookAction T
  | refreshSuccess (value : T) : IDBHookAction T
  | refreshError (error : JsErr) : IDBHookAction T

/-- `idbReducer` (reducer.ts; both variants are textually identical).
`new Date()` is modelled by the explicit current time `now`. -/
def idbReducer {T : Type} (now : Nat) (state : IDBHookState T) (action : IDBHookAction T) :
    IDBHookState T :=
  match action with
  | .updateValue v => { state with value := v, lastUpdated := some now, error := none }
  | .setError e => { state with error := e }
  | .loadValue v => { state with value := v, lastUpdated := some now, error := none }
  | .reset d => { state with value := d, lastUpdated := none, error := none }
  | .refreshSuccess v => { state with value := v, lastUpdated := some now, error := none }
  | .refreshError e => { state with error := some e }

/-! Helper lemmas about the association-list primitives. -/

theorem Assoc.get?_put_self {β : Type} (l : List (String × β)) (k : String) (v : β) :
    Assoc.get? (Assoc.put l k v) k = some v := by
  induction l with
  | nil => simp [Assoc.put, Assoc.get?]
  | cons hd tl ih =>
      obtain ⟨k1, w⟩ := hd
      by_cases h : k1 = k
      · simp [Assoc.put, h, Assoc.get?]
      · simp [Assoc.put, h, Assoc.get?, ih]

theorem Assoc.get?_erase_self {β : Type} (l : List (String × β)) (k : String) :
    Assoc.get? (Assoc.erase l k) k = none := by
  induction l with
  | nil => rfl
  | cons hd tl ih =>
      obtain ⟨k1, w⟩ := hd
      by_cases h : k1 = k
      · simp [Assoc.erase, h, ih]
      · simp [Assoc.erase, h, Assoc.get?, ih]

/-- C5: for every key and plain-data value, `set(key, value)` followed by
`get(key)` on the same collection, with no interleaving writes, resolves to a
value deep-equal to the one set.  (`Plain` equality is structural, i.e. deep
equality; the hypothesis records that the set transaction succeeded.) -/
theorem set_then_get_roundtrip (c : DBConn) (s k : String) (v : Plain) (c2 : DBConn)
    (h : setInDB c s k v = .ok c2) :
    getFromDB c2 s k = .ok (some v) := by
  unfold setInDB at h
  cases hf : c.fault with
  | some e => rw [hf] at h; cases h
  | none =>
      rw [hf] at h
      cases hs : Assoc.get? c.db.stores s with
      | none => rw [hs] at h; cases h
      | some st =>
          rw [hs] at h
          cases h
          simp [getFromDB, hf, Assoc.get?_put_self]

/-- C5 witness: a concrete round trip through an object value. -/
theorem set_then_get_roundtrip_witness :
    setInDB ⟨⟨1, [("default", [])]⟩, none⟩ "default" "k"
        (Plain.obj [("a", Plain.num 1), ("b", Plain.arr [Plain.null, Plain.bool true])])
      = .ok ⟨⟨1, [("default",
            [("k", Plain.obj [("a", Plain.num 1),
                              ("b", Plain.arr [Plain.null, Plain.bool true])])])]⟩, none⟩
  ∧ getFromDB ⟨⟨1, [("default",
        [("k", Plain.obj [("a", Plain.num 1),
                          ("b", Plain.arr [Plain.null, Plain.bool true])])])]⟩, none⟩
      "default" "k"
      = .ok (some (Plain.obj [("a", Plain.num 1),
                              ("b", Plain.arr [Plain.null, Plain.bool true])])) :=
  ⟨rfl, set_then_get_roundtrip ⟨⟨1, [("default", [])]⟩, none⟩ "default" "k" _ _ rfl⟩

/-- C10: frame conditions of `idbReducer` — `SET_ERROR` / `REFRESH_ERROR`
leave `value` and `lastUpdated` unchanged; `UPDATE_VALUE`, `LOAD_VALUE`,
`RESET` and `REFRESH_SUCCESS` clear `error`; `RESET` nulls `lastUpdated`
while the other value-changing actions stamp it with the current time. -/
theorem idbReducer_frame {T : Type} (now : Nat) (st : IDBHookState T)
    (v d : T) (eo : Option JsErr) (e : JsErr) :
    ((idbReducer now st (.setError eo)).value = st.value
      ∧ (idbReducer now st (.setError eo)).lastUpdated = st.lastUpdated)
  ∧ ((idbReducer now st (.refreshError e)).value = st.value
      ∧ (idbReducer now st (.refreshError e)).lastUpdated = st.lastUpdated)
  ∧ ((idbReducer now st (.updateValue v)).error = none
      ∧ (idbReducer now st (.loadValue v)).error = none
      ∧ (idbReducer now st (.reset d)).error = none
      ∧ (idbReducer now st (.refreshSuccess v)).error = none)
  ∧ ((idbReducer now st (.reset d)).lastUpdated = none
      ∧ (idbReducer now st (.updateValue v)).lastUpdated = some now
      ∧ (idbReducer now st (.loadValue v)).lastUpdated = some now
      ∧ (idbReducer now st (.refreshSuccess v)).lastUpdated = some now) :=
  ⟨⟨rfl, rfl⟩, ⟨rfl, rfl⟩, ⟨rfl, rfl, rfl, rfl⟩, ⟨rfl, rfl, rfl, rfl⟩⟩

/-- C2: the connection cache deduplicates opens.  A registered key returns
the registered in-flight result and leaves the cache untouched; an
unregistered key registers the freshly created result under the key and
returns it; and an immediately following acquire with the same key returns
the first caller's result without creating anything. -/
theorem openDB_cache_dedup (st : OpenCache) (dbName storeName : String)
    (version : Nat) (p : Nat) :
    (Assoc.get? st.entries (openDBKey dbName version storeName) = some p →
      openDBAcquire st dbName storeName version = (st, p))
  ∧ (Assoc.get? st.entries (openDBKey dbName version storeName) = none →
      Assoc.get? (openDBAcquire st dbName storeName version).1.entries
          (openDBKey dbName version storeName)
        = some (openDBAcquire st dbName storeName version).2)
  ∧ openDBAcquire (openDBAcquire st dbName storeName version).1 dbName storeName version
      = ((openDBAcquire st dbName storeName version).1,
         (openDBAcquire st dbName storeName version).2) := by
  refine ⟨?_, ?_, ?_⟩
  · intro h
    simp [openDBAcquire, h]
  · intro h
    simp [openDBAcquire, h, Assoc.get?_put_self]
  · cases h : Assoc.get? st.entries (openDBKey dbName version storeName) with
    | some q => simp [openDBAcquire, h]
    | none => simp [openDBAcquire, h, Assoc.get?_put_self]

/-- C2 witness: on an empty cache the open registers itself under
`mydb:1:store` and a second acquire returns the same in-flight result. -/
theorem openDB_cache_dedup_witness :
    Assoc.get? (openDBAcquire ⟨[], 0⟩ "mydb" "store" 1).1.entries
        (openDBKey "mydb" 1 "store")
      = some (openDBAcquire ⟨[], 0⟩ "mydb" "store" 1).2
  ∧ openDBAcquire (openDBAcquire ⟨[], 0⟩ "mydb" "store" 1).1 "mydb" "store" 1
      = ((openDBAcquire ⟨[], 0⟩ "mydb" "store" 1).1,
         (openDBAcquire ⟨[], 0⟩ "mydb" "store" 1).2) :=
  ⟨(openDB_cache_dedup ⟨[], 0⟩ "mydb" "store" 1 0).2.1 rfl,
   (openDB_cache_dedup ⟨[], 0⟩ "mydb" "store" 1 0).2.2⟩

/-- C8: two facade configurations differing only in `version` produce the
identical `openDB` invocation from `getDB` — the version-change callback sits
in the `version` parameter slot, `onVersionChange` receives `undefined`, the
configured version is never forwarded, and the resulting cache key agrees. -/
theorem getDB_version_independent (c1 c2 : IDBConfigValues)
    (hd : c1.database = c2.database) (hs : c1.store = c2.store) :
    getDBOpenArgs c1 = getDBOpenArgs c2
  ∧ (getDBOpenArgs c1).version = JsArg.fn "resetCachedDb"
  ∧ (getDBOpenArgs c1).onVersionChange = JsArg.undef
  ∧ openDBKeyOfArgs (getDBOpenArgs c1) = openDBKeyOfArgs (getDBOpenArgs c2) := by
  refine ⟨?_, rfl, rfl, ?_⟩ <;>
    simp [getDBOpenArgs, openDBKeyOfArgs, JsArg.jsToString, hd, hs]

/-- C8 witness: versions 1 and 99 with equal database and store yield the
same call and the same cache key. -/
theorem getDB_version_independent_witness :
    getDBOpenArgs ⟨"app", 1, "data"⟩ = getDBOpenArgs ⟨"app", 99, "data"⟩
  ∧ openDBKeyOfArgs (getDBOpenArgs ⟨"app", 1, "data"⟩)
      = openDBKeyOfArgs (getDBOpenArgs ⟨"app", 99, "data"⟩) :=
  ⟨(getDB_version_independent ⟨"app", 1, "data"⟩ ⟨"app", 99, "data"⟩ rfl rfl).1,
   (getDB_version_independent ⟨"app", 1, "data"⟩ ⟨"app", 99, "data"⟩ rfl rfl).2.2.2⟩

/-- C6 counterexample: constructing the facade directly with version 1/2
stores 1/2 — the constructor neither floors nor clamps, so the claimed
"version ≥ 1, floored, before use" fails on the constructed configuration. -/
theorem config_version_unclamped_cex :
    (IDBStorage.mkConfig defaultIDBConfig
        { database := none, version := some (1 / 2), store := none }).version = 1 / 2
  ∧ ¬ (1 ≤ (IDBStorage.mkConfig defaultIDBConfig
        { database := none, version := some (1 / 2), store := none }).version) := by
  constructor
  · rfl
  · norm_num [IDBStorage.mkConfig, spreadOverrides, spreadFull]

/-- C6 (amended): the constructor produces exactly the priority merge
defaults → process-wide config → caller overrides, with no flooring or
clamping; the floor-and-clamp to an integer ≥ 1 happens only in the hook's
version resolution, which feeds the constructor. -/
theorem config_merge_and_hook_clamp (g : IDBConfigValues) (o : IDBConfigOverrides)
    (optsV : Option Rat) (ctx : IDBConfigValues) :
    IDBStorage.mkConfig g o
      = { database := o.database.getD g.database,
          version := o.version.getD g.version,
          store := o.store.getD g.store }
  ∧ 1 ≤ hookVersion optsV ctx.version
  ∧ (hookConfig o ctx).version = (hookVersion o.version ctx.version : Rat)
  ∧ 1 ≤ (hookConfig o ctx).version := by
  refine ⟨rfl, le_max_left 1 _, rfl, ?_⟩
  have h1 : (1 : Int) ≤ hookVersion o.version ctx.version := le_max_left 1 _
  have h2 : ((1 : Int) : Rat) ≤ ((hookVersion o.version ctx.version : Int) : Rat) := by
    exact_mod_cast h1
  simpa [hookConfig] using h2

/-- C1 counterexample: the repository defines no `StorageError` type — a
failing operation rethrows the engine's own error object unchanged.  At a
connection whose engine fails with `AbortError`, the error `get` fails with
is that `AbortError`, not any wrapper named `StorageError`. -/
theorem storage_error_wrapper_cex :
    ¬ (∀ err : JsErr,
        (IDBStore.get ⟨⟨⟨1, [("default", [])]⟩, some ⟨"AbortError", "aborted"⟩⟩, "default"⟩
            "k").1 = .error err →
        err.name = "StorageError") := by
  intro h
  have h2 := h ⟨"AbortError", "aborted"⟩ rfl
  simp at h2

/-- C1 (amended): whenever the underlying transaction or request errors,
every Collection Accessor operation (get, set, delete, getMany on a nonempty
key list, setMany, deleteMany, update, clear, keys, values, entries) fails
with that same underlying error — rethrown unwrapped, since no `StorageError`
type exists — and logs it at the call site, never swallowing it. -/
theorem store_ops_log_and_rethrow (c : DBConn) (s : String) (e : JsErr)
    (hf : c.fault = some e) (key k : String) (v : Plain) (ks : List String)
    (entries : List (String × Plain)) (f : Option Plain → Plain) :
    ((IDBStore.get ⟨c, s⟩ key).1 = .error e ∧ (IDBStore.get ⟨c, s⟩ key).2 ≠ [])
  ∧ ((IDBStore.set ⟨c, s⟩ key v).1 = .error e ∧ (IDBStore.set ⟨c, s⟩ key v).2 ≠ [])
  ∧ ((IDBStore.delete ⟨c, s⟩ key).1 = .error e ∧ (IDBStore.delete ⟨c, s⟩ key).2 ≠ [])
  ∧ ((IDBStore.getMany ⟨c, s⟩ (k :: ks)).1 = .error e
      ∧ (IDBStore.getMany ⟨c, s⟩ (k :: ks)).2 ≠ [])
  ∧ ((IDBStore.setMany ⟨c, s⟩ entries).1 = .error e
      ∧ (IDBStore.setMany ⟨c, s⟩ entries).2 ≠ [])
  ∧ ((IDBStore.deleteMany ⟨c, s⟩ ks).1 = .error e ∧ (IDBStore.deleteMany ⟨c, s⟩ ks).2 ≠ [])
  ∧ ((IDBStore.update ⟨c, s⟩ key f).1 = .error e ∧ (IDBStore.update ⟨c, s⟩ key f).2 ≠ [])
  ∧ ((IDBStore.clear ⟨c, s⟩).1 = .error e ∧ (IDBStore.clear ⟨c, s⟩).2 ≠ [])
  ∧ ((IDBStore.keys ⟨c, s⟩).1 = .error e ∧ (IDBStore.keys ⟨c, s⟩).2 ≠ [])
  ∧ ((IDBStore.values ⟨c, s⟩).1 = .error e ∧ (IDBStore.values ⟨c, s⟩).2 ≠ [])
  ∧ ((IDBStore.entries ⟨c, s⟩).1 = .error e ∧ (IDBStore.entries ⟨c, s⟩).2 ≠ []) := by
  refine ⟨⟨?_, ?_⟩, ⟨?_, ?_⟩, ⟨?_, ?_⟩, ⟨?_, ?_⟩, ⟨?_, ?_⟩, ⟨?_, ?_⟩,
          ⟨?_, ?_⟩, ⟨?_, ?_⟩, ⟨?_, ?_⟩, ⟨?_, ?_⟩, ⟨?_, ?_⟩⟩ <;>
    simp [IDBStore.get, IDBStore.set, IDBStore.delete, IDBStore.getMany,
          IDBStore.collectGets, IDBStore.setMany, IDBStore.deleteMany,
          IDBStore.update, IDBStore.clear, IDBStore.keys, IDBStore.values,
          IDBStore.entries, getFromDB, setInDB, removeFromDB, hf]

/-- C1 witness: a concrete faulted connection — `get` rethrows the engine's
`AbortError` and `clear` has logged. -/
theorem store_ops_log_and_rethrow_witness :
    (IDBStore.get ⟨⟨⟨1, [("default", [])]⟩, some ⟨"AbortError", "aborted"⟩⟩, "default"⟩
        "k").1 = .error ⟨"AbortError", "aborted"⟩
  ∧ (IDBStore.clear ⟨⟨⟨1, [("default", [])]⟩, some ⟨"AbortError", "aborted"⟩⟩,
        "default"⟩).2 ≠ [] := by
  have h := store_ops_log_and_rethrow
    ⟨⟨1, [("default", [])]⟩, some ⟨"AbortError", "aborted"⟩⟩ "default"
    ⟨"AbortError", "aborted"⟩ rfl "k" "k" Plain.null [] [] (fun _ => Plain.null)
  exact ⟨h.1.1, h.2.2.2.2.2.2.2.1.2⟩

/-! Helper lemmas about the debounced writer. -/

theorem saveToIDB_ready {α : Type} (b : Binding α) (v : Option α) :
    (saveToIDB b v).ready = b.ready := by
  unfold saveToIDB
  split <;> rfl

theorem foldl_saveToIDB_ready {α : Type} (l : List (Option α)) (b : Binding α) :
    (List.foldl saveToIDB b l).ready = b.ready := by
  induction l generalizing b with
  | nil => rfl
  | cons v l ih => simp [List.foldl, ih, saveToIDB_ready]

theorem foldl_saveToIDB_of_ready {α : Type} (l : List (Option α)) (v : Option α) :
    List.foldl saveToIDB (⟨true, v, true⟩ : Binding α) l
      = ⟨true, lastSet v l, true⟩ := by
  induction l generalizing v with
  | nil => rfl
  | cons w l ih =>
      have hstep : saveToIDB (⟨true, v, true⟩ : Binding α) w = ⟨true, w, true⟩ := rfl
      rw [List.foldl_cons, hstep, ih]
      rfl

theorem saveToIDB_ready_step {α : Type} (b : Binding α) (hr : b.ready = true)
    (v : Option α) : saveToIDB b v = ⟨true, v, true⟩ := by
  cases b with
  | mk r p t =>
      simp only at hr
      subst hr
      rfl

/-- C4 counterexample: the setter sequence `setValue(0); setValue(null)` in
one debounce window issues zero writes when the timer fires — not the claimed
single write containing the last value set — because `null` doubles as the
writer's no-pending sentinel. -/
theorem debounce_last_value_cex :
    ¬ ((timerFire (List.foldl saveToIDB (⟨true, none, false⟩ : Binding Nat)
          (some 0 :: [none]))).2
        = [lastSet (some 0) [none]]) := by
  decide

/-- C4 (amended): for two or more setter calls inside one debounce window on
a ready binding, the timer firing issues exactly one background write
containing the last value set — provided that value is not `null`; when the
last value set is `null` no write is issued.  Earlier pending values are
superseded and never written, and the consumed timer issues nothing more. -/
theorem debounce_coalesces_to_last {α : Type} (b : Binding α) (hr : b.ready = true)
    (v1 v2 : Option α) (rest : List (Option α)) :
    (timerFire (List.foldl saveToIDB b (v1 :: v2 :: rest))).2
        = ((lastSet v1 (v2 :: rest)).map some).toList
  ∧ (timerFire (timerFire (List.foldl saveToIDB b (v1 :: v2 :: rest))).1).2 = [] := by
  have hfold : List.foldl saveToIDB b (v1 :: v2 :: rest)
      = ⟨true, lastSet v1 (v2 :: rest), true⟩ := by
    have h1 : List.foldl saveToIDB b (v1 :: v2 :: rest)
        = List.foldl saveToIDB (saveToIDB b v1) (v2 :: rest) := rfl
    rw [h1, saveToIDB_ready_step b hr v1, foldl_saveToIDB_of_ready]
  rw [hfold]
  cases h : lastSet v1 (v2 :: rest) <;> simp [timerFire]

/-- C4 witness: `setValue(1); setValue(2); setValue(3)` in one window
persists exactly one write, `3`. -/
theorem debounce_coalesces_to_last_witness :
    (timerFire (List.foldl saveToIDB (⟨true, none, false⟩ : Binding Nat)
        [some 1, some 2, some 3])).2 = [some 3] := by
  have h := debounce_coalesces_to_last (⟨true, none, false⟩ : Binding Nat) rfl
    (some 1) (some 2) [some 3]
  simpa using h.1

/-- C9: `null` is the writer's no-pending sentinel — after any call sequence
whose most recent setter call set `null` on a ready binding, the debounce
timer firing issues no write and the teardown flush issues no write, so a
`null` value is never persisted through the debounced write path. -/
theorem null_sentinel_skips_write {α : Type} (b : Binding α) (hr : b.ready = true)
    (vs : List (Option α)) :
    (timerFire (List.foldl saveToIDB b (vs ++ [none]))).2 = []
  ∧ teardownFlush (List.foldl saveToIDB b (vs ++ [none])) = none := by
  have h1 : List.foldl saveToIDB b (vs ++ [none])
      = saveToIDB (List.foldl saveToIDB b vs) none := by
    rw [List.foldl_append]
    rfl
  have h2 : (List.foldl saveToIDB b vs).ready = true :=
    (foldl_saveToIDB_ready vs b).trans hr
  rw [h1, saveToIDB_ready_step _ h2 none]
  exact ⟨rfl, rfl⟩

/-- C9 witness: `setValue(5); setValue(null)` — neither the timer nor the
teardown flush writes. -/
theorem null_sentinel_skips_write_witness :
    (timerFire (List.foldl saveToIDB (⟨true, none, false⟩ : Binding Nat)
        ([some 5] ++ [none]))).2 = []
  ∧ teardownFlush (List.foldl saveToIDB (⟨true, none, false⟩ : Binding Nat)
        ([some 5] ++ [none])) = none :=
  null_sentinel_skips_write (⟨true, none, false⟩ : Binding Nat) rfl [some 5]

/-! Helper lemmas about the gateway's upgrade handler. -/

theorem ensureStore_hasStore (storeName : String) (db : DB) :
    (ensureStore storeName db).hasStore storeName = true := by
  unfold ensureStore
  cases h : db.hasStore storeName with
  | true => simp [h]
  | false => simp [h, DB.hasStore, Assoc.get?]

theorem ensureStore_version (storeName : String) (db : DB) :
    (ensureStore storeName db).version = db.version := by
  unfold ensureStore
  split <;> rfl

/-- C3: when an open succeeds but the opened database lacks the requested
collection, the gateway discards the pending cache entry and retries the
whole open with the opened version + 1 (first conjunct: the run literally
continues as that retried open); the retry's version bump runs the upgrade
step, which creates the collection, so the open resolves with a connection
that has the collection at version + 1 and whose original cache entry is
gone (second conjunct). -/
theorem missing_store_version_bump (n : Nat) (e : Engine) (cache : List (String × Nat))
    (dbName storeName : String) (db0 : DB)
    (hf : e.openFault = none)
    (h1 : Assoc.get? e.dbs dbName = some db0)
    (h2 : db0.hasStore storeName = false) :
    (openDBRec (n + 2) e cache dbName storeName (some db0.version)
       = openDBRec (n + 1) e
           (Assoc.erase cache (pendKey dbName (some db0.version) storeName))
           dbName storeName (some (db0.version + 1)))
  ∧ ∃ e2 db2,
      openDBRec (n + 2) e cache dbName storeName (some db0.version)
        = .ok (e2, Assoc.erase cache (pendKey dbName (some db0.version) storeName), db2)
      ∧ db2.hasStore storeName = true
      ∧ db2.version = db0.version + 1
      ∧ Assoc.get? (Assoc.erase cache (pendKey dbName (some db0.version) storeName))
          (pendKey dbName (some db0.version) storeName) = none := by
  have hopen1 : openRequest e dbName (some db0.version) (ensureStore storeName)
      = .ok (e, db0) := by
    unfold openRequest
    rw [hf, h1]
    simp
  have hopen2 : openRequest e dbName (some (db0.version + 1)) (ensureStore storeName)
      = .ok (e.setDB dbName (ensureStore storeName { db0 with version := db0.version + 1 }),
             ensureStore storeName { db0 with version := db0.version + 1 }) := by
    unfold openRequest
    rw [hf, h1]
    have hlt : ¬ (db0.version + 1 < db0.version) := by omega
    have hne : ¬ (db0.version + 1 = db0.version) := by omega
    simp [hlt, hne]
  have step1 : openDBRec (n + 2) e cache dbName storeName (some db0.version)
      = openDBRec (n + 1) e
          (Assoc.erase cache (pendKey dbName (some db0.version) storeName))
          dbName storeName (some (db0.version + 1)) := by
    show openDBRec ((n + 1) + 1) e cache dbName storeName (some db0.version) = _
    rw [openDBRec, hopen1]
    simp [h2]
  have step2 : openDBRec (n + 1) e
      (Assoc.erase cache (pendKey dbName (some db0.version) storeName))
      dbName storeName (some (db0.version + 1))
      = .ok (e.setDB dbName (ensureStore storeName { db0 with version := db0.version + 1 }),
             Assoc.erase cache (pendKey dbName (some db0.version) storeName),
             ensureStore storeName { db0 with version := db0.version + 1 }) := by
    show openDBRec (n + 1) _ _ _ _ _ = _
    rw [openDBRec, hopen2]
    simp [ensureStore_hasStore]
  refine ⟨step1, ⟨_, _, step1.trans step2, ensureStore_hasStore storeName _, ?_, ?_⟩⟩
  · rw [ensureStore_version]
  · exact Assoc.get?_erase_self cache _

/-- C3 witness: database `mydb` exists at version 3 without store `st`; the
open at version 3 continues as the retried open at version 4 with the cache
entry for `mydb:3:st` discarded. -/
theorem missing_store_version_bump_witness :
    openDBRec 2 ⟨[("mydb", ⟨3, [("other", [])]⟩)], none⟩ [("mydb:3:st", 7)]
        "mydb" "st" (some 3)
      = openDBRec 1 ⟨[("mydb", ⟨3, [("other", [])]⟩)], none⟩
          (Assoc.erase [("mydb:3:st", 7)] (pendKey "mydb" (some 3) "st"))
          "mydb" "st" (some 4) :=
  (missing_store_version_bump 0 ⟨[("mydb", ⟨3, [("other", [])]⟩)], none⟩
    [("mydb:3:st", 7)] "mydb" "st" ⟨3, [("other", [])]⟩ rfl rfl (by decide)).1

/-- C7: an open failing with the engine's version-lower-than-existing error
is retried exactly once with no explicit version — the run continues as the
no-version open (first conjunct), which adopts the existing version and, when
the store is present, resolves with the existing database (second conjunct);
any other open error is propagated to the caller as a rejection (third
conjunct). -/
theorem version_error_retry (n : Nat) (e : Engine) (cache : List (String × Nat))
    (dbName storeName : String) (v : Nat) (db0 : DB) (err : JsErr) :
    (e.openFault = none → Assoc.get? e.dbs dbName = some db0 → v < db0.version →
      openDBRec (n + 1) e cache dbName storeName (some v)
        = openDBRec n e (Assoc.erase cache (pendKey dbName (some v) storeName))
            dbName storeName none)
  ∧ (e.openFault = none → Assoc.get? e.dbs dbName = some db0 → v < db0.version →
      db0.hasStore storeName = true →
      openDBRec (n + 2) e cache dbName storeName (some v)
        = .ok (e, Assoc.erase cache (pendKey dbName (some v) storeName), db0))
  ∧ (e.openFault = some err → isVersionRetryErr err = false →
      openDBRec (n + 1) e cache dbName storeName (some v) = .error err) := by
  have hretry : isVersionRetryErr versionError = true := by decide
  refine ⟨?_, ?_, ?_⟩
  · intro hf h1 hv
    have hopen : openRequest e dbName (some v) (ensureStore storeName)
        = .error versionError := by
      unfold openRequest
      rw [hf, h1]
      simp [hv]
    rw [openDBRec, hopen]
    simp [hretry]
  · intro hf h1 hv hs
    have hopen : openRequest e dbName (some v) (ensureStore storeName)
        = .error versionError := by
      unfold openRequest
      rw [hf, h1]
      simp [hv]
    have hopen2 : openRequest e dbName none (ensureStore storeName) = .ok (e, db0) := by
      unfold openRequest
      rw [hf, h1]
    show openDBRec ((n + 1) + 1) e cache dbName storeName (some v) = _
    rw [openDBRec, hopen]
    simp only [hretry, if_true]
    rw [openDBRec, hopen2]
    simp [hs]
  · intro hf hvr
    have hopen : openRequest e dbName (some v) (ensureStore storeName) = .error err := by
      unfold openRequest
      rw [hf]
    rw [openDBRec, hopen]
    simp [hvr]

/-- C7 witness: at an existing `d` of version 5 containing store `s`, an open
at version 3 resolves with the version-5 database; an engine failing with an
`UnknownError` propagates it. -/
theorem version_error_retry_witness :
    openDBRec 2 ⟨[("d", ⟨5, [("s", [])]⟩)], none⟩ [] "d" "s" (some 3)
      = .ok (⟨[("d", ⟨5, [("s", [])]⟩)], none⟩,
             Assoc.erase [] (pendKey "d" (some 3) "s"), ⟨5, [("s", [])]⟩)
  ∧ openDBRec 1 ⟨[], some ⟨"UnknownError", "boom"⟩⟩ [] "d" "s" (some 3)
      = .error ⟨"UnknownError", "boom"⟩ :=
  ⟨(version_error_retry 0 ⟨[("d", ⟨5, [("s", [])]⟩)], none⟩ [] "d" "s" 3
      ⟨5, [("s", [])]⟩ ⟨"x", "y"⟩).2.1 rfl rfl (by decide) (by decide),
   (version_error_retry 0 ⟨[], some ⟨"UnknownError", "boom"⟩⟩ [] "d" "s" 3
      ⟨1, []⟩ ⟨"UnknownError", "boom"⟩).2.2 rfl (by decide)⟩

end Idb
